import Mathlib

/-! Verification development for the mesa-backend location-search service
(src/app.py). The two Flask handlers `search_suggestions` and
`get_place_details` are embedded as pure functions over an environment of
optionally-constructed search providers; besides the HTTP status and body,
each run also yields a trace of observable effects (provider invocations,
persistence writes, and the log records of the persistence block), which the
handlers' error-handling claims are stated over. -/

namespace Mesa

/-- Normalized place record: the fields of the provider-produced objects that
src/app.py reads (place_id, name, address, latitude, longitude, source,
additional_data). The handlers only pass coordinates through, so they are
modelled as rationals; additional_data is an open string-keyed mapping. -/
structure Place where
  place_id : String
  name : String
  address : String
  latitude : Option Rat
  longitude : Option Rat
  source : String
  additional_data : List (String × String)
  deriving DecidableEq

/-- Typed failure raised by a live provider mid-call (the spec's
ProviderError); msg is the exception text that str(e) would render. -/
structure ProviderError where
  msg : String
  deriving DecidableEq

/-- Observable effects of one handler run: provider invocations, the two
persistence writes of the details path, and the log records of the
persistence block. Debug/warning logging elsewhere in app.py carries no
data flow and is not modelled. -/
inductive Effect where
  | callSearch (prov : String) (query : String) (limit : Int)
      (latitude longitude : Option Rat)
  | callDetails (prov : String) (place_id : String)
  | callWhooshSave (p : Place)
  | callFirestoreSave (p : Place)
  | logInfoSavedWhoosh (name : String)
  | logInfoSavedFirestore (fid : String)
  | logErrorFirestore (msg : String)
  | logErrorSave (msg : String)
  deriving DecidableEq

/-- Minimal suggestion projection built at src/app.py lines 104-116. -/
structure Suggestion where
  id : String
  name : String
  address : String
  source : String
  latitude : Option Rat
  longitude : Option Rat
  deriving DecidableEq

/-- Full place projection built at src/app.py lines 181-193. -/
structure PlaceOut where
  id : String
  name : String
  address : String
  latitude : Option Rat
  longitude : Option Rat
  source : String
  additional_data : List (String × String)
  deriving DecidableEq

/-- Response body of a handler: a suggestions list, a full place, or an
error message (jsonify of the respective dict). -/
inductive Body where
  | suggestions (items : List Suggestion)
  | place (p : PlaceOut)
  | error (msg : String)
  deriving DecidableEq

/-- Result of one handler run: HTTP status, response body, effect trace. -/
structure HResult where
  status : Nat
  body : Body
  effects : List Effect
  deriving DecidableEq

/-- Capability surface of one search provider as used by src/app.py:
search(query, limit, latitude, longitude), get_place_details(place_id),
save_place(place). Calls that omit latitude/longitude in the source pass
none here (the provider's own defaults). -/
structure Provider where
  search : String → Int → Option Rat → Option Rat →
    Except ProviderError (List Place)
  get_place_details : String → Except String Place
  save_place : Place → Except String Unit

/-- Process environment after the module-level initialization of
src/app.py lines 22-49: each provider slot is None when its construction
failed. firestore_save models PlaceStorage() construction plus
storage.save_place(place) (both run inside the same inner try at lines
171-176), returning the assigned Firestore id. -/
structure Env where
  whoosh_provider : Option Provider
  mapbox_provider : Option Provider
  google_places_provider : Option Provider
  firestore_save : Place → Except String String

/-- Value of a list of decimal digit characters. -/
def digitsVal (ds : List Char) : Nat :=
  ds.foldl (fun a c => a * 10 + (c.toNat - 48)) 0

/-- Models Python int(s) on plain decimal literals: an optional sign
followed by one or more digits; anything else raises ValueError (none). -/
def pyInt? (s : String) : Option Int :=
  let core : List Char → Option Nat := fun ds =>
    if ds ≠ [] ∧ ds.all Char.isDigit then some (digitsVal ds) else none
  match s.toList with
  | '-' :: rest => (core rest).map fun n => -(n : Int)
  | '+' :: rest => (core rest).map fun n => (n : Int)
  | ds => (core ds).map fun n => (n : Int)

/-- Unsigned part of pyFloat?: digits, optionally split by one point. -/
def pyFloatCore (cs : List Char) : Option Rat :=
  let ip := cs.takeWhile Char.isDigit
  let rest := cs.dropWhile Char.isDigit
  match rest with
  | [] => if ip = [] then none else some ((digitsVal ip : Nat) : Rat)
  | '.' :: fp =>
    if fp.all Char.isDigit ∧ (ip ≠ [] ∨ fp ≠ []) then
      some ((digitsVal ip : Rat) + (digitsVal fp : Rat) / (10 : Rat) ^ fp.length)
    else none
  | _ => none

/-- Models Python float(s) on plain decimal literals: optional sign, digits
with an optional decimal point; anything else raises ValueError (none). -/
def pyFloat? (s : String) : Option Rat :=
  match s.toList with
  | '-' :: rest => (pyFloatCore rest).map Neg.neg
  | '+' :: rest => pyFloatCore rest
  | cs => pyFloatCore cs

/-- Query-string arguments of the suggestions endpoint, each absent or a
raw string as Flask's request.args.get returns them. -/
structure SuggestArgs where
  query : Option String
  limit : Option String
  provider : Option String
  latitude : Option String
  longitude : Option String

/-- Query-string arguments of the place-details endpoint. -/
structure DetailsArgs where
  place_id : Option String
  source : Option String

/-- Python truthiness check `not arg` on an optional string argument:
absent or empty is falsy. -/
def falsyArg : Option String → Bool
  | none => true
  | some s => s = ""

/-- Models Python str.lower() on the ASCII provider names the handler
compares against. -/
def pyLower (s : String) : String := String.mk (s.data.map Char.toLower)

/-- Models src/app.py line 55, min(int(request.args.get(limit, 5)), 5)
up to the int() conversion: an absent argument yields the integer default
5, a present one is parsed with int() and may raise. -/
def parseLimitArg : Option String → Except String Int
  | none => .ok 5
  | some s =>
    match pyInt? s with
    | some n => .ok n
    | none => .error ("invalid literal for int() with base 10: " ++ s)

/-- Models src/app.py lines 63-66: float(arg) when the argument is present,
which may raise ValueError. -/
def parseCoordArg : Option String → Except String (Option Rat)
  | none => .ok none
  | some s =>
    match pyFloat? s with
    | some r => .ok (some r)
    | none => .error ("could not convert string to float: " ++ s)

/-- Modelled from the spec: deduplication by (source, place_id) keeping
first occurrences (spec section 4.3 step 4); the orchestrator sources are
not part of the repository snapshot. -/
def dedupPlacesAux (seen : List (String × String)) : List Place → List Place
  | [] => []
  | p :: ps =>
    if (p.source, p.place_id) ∈ seen then dedupPlacesAux seen ps
    else p :: dedupPlacesAux ((p.source, p.place_id) :: seen) ps

/-- Deduplicate a merged result list by (source, place_id). -/
def dedupPlaces (ps : List Place) : List Place := dedupPlacesAux [] ps

/-- Modelled from the spec: SearchOrchestrator.search (the search package
is not part of the repository snapshot; only app.py is). Spec section 4.3:
invoke each configured, present provider — local index first, then mapbox,
then google; a ProviderError from a provider contributes zero results and
never fails the request; concatenate in that fixed order, deduplicate by
(source, place_id), truncate to the requested limit. Returns the capped
list together with the trace of provider invocations made.
provider_fanout is the per-provider step: an absent provider contributes
nothing and is not invoked, a failing one contributes zero results. -/
def provider_fanout (nm : String) (p? : Option Provider) (query : String)
    (limit : Int) (latitude longitude : Option Rat) :
    List Place × List Effect :=
  match p? with
  | none => ([], [])
  | some p =>
    match p.search query limit latitude longitude with
    | .ok rs => (rs, [Effect.callSearch nm query limit latitude longitude])
    | .error _ => ([], [Effect.callSearch nm query limit latitude longitude])

/-- Modelled from the spec: the fan-out/merge/dedup/cap pipeline of
SearchOrchestrator.search over the three provider slots, in the fixed
priority order local index, mapbox, google (spec section 4.3). -/
def orchestrator_search (env : Env) (query : String) (limit : Int)
    (latitude longitude : Option Rat) : List Place × List Effect :=
  let a := provider_fanout "whoosh" env.whoosh_provider query limit latitude longitude
  let b := provider_fanout "mapbox" env.mapbox_provider query limit latitude longitude
  let c := provider_fanout "google" env.google_places_provider query limit latitude longitude
  ((dedupPlaces (a.1 ++ b.1 ++ c.1)).take limit.toNat, a.2 ++ b.2 ++ c.2)

/-- Suggestion projection of one result (src/app.py lines 106-115). -/
def toSuggestion (p : Place) : Suggestion :=
  ⟨p.place_id, p.name, p.address, p.source, p.latitude, p.longitude⟩

/-- Full place projection (src/app.py lines 182-192). -/
def toPlaceOut (p : Place) : PlaceOut :=
  ⟨p.place_id, p.name, p.address, p.latitude, p.longitude, p.source,
    p.additional_data⟩

/-- Dispatch stage of search_suggestions after argument parsing
(src/app.py lines 70-120): query presence check, provider selection,
suggestion projection. A provider exception on the direct path propagates
to the handler-level except and becomes a 500 response. -/
def suggest_dispatch (env : Env) (query? : Option String) (limit : Int)
    (provider : String) (latitude longitude : Option Rat) : HResult :=
  if falsyArg query? then
    ⟨400, .error "Query parameter is required", []⟩
  else
    let query := query?.getD ""
    if provider = "local" then
      match env.whoosh_provider with
      | none => ⟨503, .error "Local search provider is not available", []⟩
      | some w =>
        match w.search query limit none none with
        | .error pe =>
          ⟨500, .error pe.msg, [Effect.callSearch "whoosh" query limit none none]⟩
        | .ok results =>
          ⟨200, .suggestions (results.map toSuggestion),
            [Effect.callSearch "whoosh" query limit none none]⟩
    else if provider = "mapbox" then
      match env.mapbox_provider with
      | none => ⟨503, .error "Mapbox search provider is not available", []⟩
      | some m =>
        match m.search query limit latitude longitude with
        | .error pe =>
          ⟨500, .error pe.msg,
            [Effect.callSearch "mapbox" query limit latitude longitude]⟩
        | .ok results =>
          ⟨200, .suggestions (results.map toSuggestion),
            [Effect.callSearch "mapbox" query limit latitude longitude]⟩
    else if provider = "google" then
      match env.google_places_provider with
      | none =>
        ⟨503, .error "Google Places search provider is not available", []⟩
      | some g =>
        match g.search query limit latitude longitude with
        | .error pe =>
          ⟨500, .error pe.msg,
            [Effect.callSearch "google" query limit latitude longitude]⟩
        | .ok results =>
          ⟨200, .suggestions (results.map toSuggestion),
            [Effect.callSearch "google" query limit latitude longitude]⟩
    else if provider = "all" then
      let os := orchestrator_search env query limit latitude longitude
      ⟨200, .suggestions (os.1.map toSuggestion), os.2⟩
    else
      ⟨400, .error "Invalid provider. Must be one of: local, mapbox, google, all", []⟩

/-- Shallow embedding of search_suggestions (src/app.py lines 51-126).
Parsing happens in source order — int(limit) at line 55, float(latitude)
then float(longitude) at lines 63-66 — before the query presence check;
the Flask handler's outer try/except turns any raised exception into a 500
response carrying str(e). -/
def search_suggestions (env : Env) (args : SuggestArgs) : HResult :=
  match parseLimitArg args.limit with
  | .error e => ⟨500, .error e, []⟩
  | .ok rawLimit =>
    match parseCoordArg args.latitude with
    | .error e => ⟨500, .error e, []⟩
    | .ok latitude =>
      match parseCoordArg args.longitude with
      | .error e => ⟨500, .error e, []⟩
      | .ok longitude =>
        suggest_dispatch env args.query (min rawLimit 5)
          (pyLower (args.provider.getD "all")) latitude longitude

/-- Persistence block of get_place_details (src/app.py lines 163-178),
run after a non-local resolution when the local provider exists: the
save_place write sits in an outer try whose except logs and swallows, and
the Firestore write (PlaceStorage construction plus save, modelled by
env.firestore_save) sits in an inner try nested within that outer try —
so an exception from save_place skips the Firestore write entirely, while
a Firestore exception is logged by the inner except and control continues.
Returns the trace of writes and log records the block produces. -/
def persistence_block (env : Env) (place : Place) : List Effect :=
  match env.whoosh_provider with
  | none => []
  | some w =>
    match w.save_place place with
    | .error e => [Effect.callWhooshSave place, Effect.logErrorSave e]
    | .ok _ =>
      Effect.callWhooshSave place ::
        Effect.logInfoSavedWhoosh place.name ::
          (match env.firestore_save place with
           | .error e =>
             [Effect.callFirestoreSave place, Effect.logErrorFirestore e]
           | .ok fid =>
             [Effect.callFirestoreSave place, Effect.logInfoSavedFirestore fid])

/-- Shallow embedding of get_place_details (src/app.py lines 128-199).
Resolution picks the provider matching source; for local it is a degenerate
whoosh text search with the place_id as query and limit=1. On non-local
success persistence_block runs, and the response is the resolved place
regardless of the persistence outcomes; the handler-level try/except turns
a provider exception into a 500 response carrying str(e). -/
def get_place_details (env : Env) (args : DetailsArgs) : HResult :=
  if falsyArg args.place_id || falsyArg args.source then
    ⟨400, .error "place_id and source parameters are required", []⟩
  else
    let place_id := args.place_id.getD ""
    let source := args.source.getD ""
    let resolved : Except HResult (Place × List Effect) :=
      if source = "local" then
        match env.whoosh_provider with
        | none =>
          .error ⟨503, .error "Local search provider is not available", []⟩
        | some w =>
          match w.search place_id 1 none none with
          | .error pe =>
            .error ⟨500, .error pe.msg,
              [Effect.callSearch "whoosh" place_id 1 none none]⟩
          | .ok [] =>
            .error ⟨404, .error "Place not found",
              [Effect.callSearch "whoosh" place_id 1 none none]⟩
          | .ok (p :: _) =>
            .ok (p, [Effect.callSearch "whoosh" place_id 1 none none])
      else if source = "mapbox" then
        match env.mapbox_provider with
        | none =>
          .error ⟨503, .error "Mapbox search provider is not available", []⟩
        | some m =>
          match m.get_place_details place_id with
          | .error e => .error ⟨500, .error e, [Effect.callDetails "mapbox" place_id]⟩
          | .ok p => .ok (p, [Effect.callDetails "mapbox" place_id])
      else if source = "google" then
        match env.google_places_provider with
        | none =>
          .error ⟨503, .error "Google Places search provider is not available", []⟩
        | some g =>
          match g.get_place_details place_id with
          | .error e => .error ⟨500, .error e, [Effect.callDetails "google" place_id]⟩
          | .ok p => .ok (p, [Effect.callDetails "google" place_id])
      else
        .error ⟨400, .error "Invalid source. Must be one of: local, mapbox, google", []⟩
    match resolved with
    | .error r => r
    | .ok (place, effs) =>
      let saveEffs : List Effect :=
        if source ≠ "local" then persistence_block env place else []
      ⟨200, .place (toPlaceOut place), effs ++ saveEffs⟩

/-- Provider-invocation effects (search or details calls) of a trace. -/
def isProviderCall : Effect → Bool
  | .callSearch _ _ _ _ _ => true
  | .callDetails _ _ => true
  | _ => false

/-- Provider invocations recorded in a trace. -/
def providerCalls (effs : List Effect) : List Effect :=
  effs.filter isProviderCall

/-- Whether a trace contains a save_place write into the local index. -/
def attemptsWhooshSave (effs : List Effect) : Bool :=
  effs.any fun e =>
    match e with
    | .callWhooshSave _ => true
    | _ => false

/-- Whether a trace contains an insert into the durable record store. -/
def attemptsFirestoreSave (effs : List Effect) : Bool :=
  effs.any fun e =>
    match e with
    | .callFirestoreSave _ => true
    | _ => false

/-- Whether a trace contains an invocation of the named provider. -/
def callsTo (nm : String) (effs : List Effect) : Bool :=
  effs.any fun e =>
    match e with
    | .callSearch p _ _ _ _ => p = nm
    | .callDetails p _ => p = nm
    | _ => false

end Mesa

namespace Mesa

/-! Helper lemmas shared by the claim theorems. -/

theorem falsyArg_some_ne (q : String) (hq : q ≠ "") : falsyArg (some q) = false := by
  simp [falsyArg, hq]

theorem get_place_details_mapbox (env : Env) (m : Provider) (pid : String)
    (p : Place) (hpid : pid ≠ "") (hm : env.mapbox_provider = some m)
    (hres : m.get_place_details pid = .ok p) :
    get_place_details env ⟨some pid, some "mapbox"⟩ =
      ⟨200, .place (toPlaceOut p),
        Effect.callDetails "mapbox" pid :: persistence_block env p⟩ := by
  simp [get_place_details, falsyArg, hpid, hm, hres]

theorem get_place_details_google (env : Env) (g : Provider) (pid : String)
    (p : Place) (hpid : pid ≠ "") (hg : env.google_places_provider = some g)
    (hres : g.get_place_details pid = .ok p) :
    get_place_details env ⟨some pid, some "google"⟩ =
      ⟨200, .place (toPlaceOut p),
        Effect.callDetails "google" pid :: persistence_block env p⟩ := by
  simp [get_place_details, falsyArg, hpid, hg, hres]

theorem suggest_dispatch_all (env : Env) (q : String) (hq : q ≠ "")
    (l : Int) (la lo : Option Rat) :
    suggest_dispatch env (some q) l "all" la lo =
      ⟨200, .suggestions ((orchestrator_search env q l la lo).1.map toSuggestion),
        (orchestrator_search env q l la lo).2⟩ := by
  have hf : falsyArg (some q) = false := by simp [falsyArg, hq]
  simp [suggest_dispatch, hf]

theorem orchestrator_search_length_le (env : Env) (q : String) (l : Int)
    (la lo : Option Rat) :
    (orchestrator_search env q l la lo).1.length ≤ l.toNat := by
  simp only [orchestrator_search]
  exact List.length_take_le _ _

theorem callsTo_append (nm : String) (xs ys : List Effect) :
    callsTo nm (xs ++ ys) = (callsTo nm xs || callsTo nm ys) := by
  simp [callsTo, List.any_append]

theorem callsTo_fanout_ne (nm nm' : String) (h : ¬nm = nm') (p? : Option Provider)
    (q : String) (l : Int) (la lo : Option Rat) :
    callsTo nm' (provider_fanout nm p? q l la lo).2 = false := by
  rcases p? with _ | p
  · simp [provider_fanout, callsTo]
  · rcases hs : p.search q l la lo with pe | rs <;>
      simp [provider_fanout, callsTo, hs, h]

theorem orchestrator_skips_absent (env : Env) (q : String) (l : Int)
    (la lo : Option Rat) :
    (env.whoosh_provider = none →
      callsTo "whoosh" (orchestrator_search env q l la lo).2 = false) ∧
    (env.mapbox_provider = none →
      callsTo "mapbox" (orchestrator_search env q l la lo).2 = false) ∧
    (env.google_places_provider = none →
      callsTo "google" (orchestrator_search env q l la lo).2 = false) := by
  refine ⟨?_, ?_, ?_⟩ <;> intro h <;>
    simp only [orchestrator_search, h, callsTo_append]
  · rw [callsTo_fanout_ne "mapbox" _ (by decide) _ q l la lo,
      callsTo_fanout_ne "google" _ (by decide) _ q l la lo]
    simp [provider_fanout, callsTo]
  · rw [callsTo_fanout_ne "whoosh" _ (by decide) _ q l la lo,
      callsTo_fanout_ne "google" _ (by decide) _ q l la lo]
    simp [provider_fanout, callsTo]
  · rw [callsTo_fanout_ne "whoosh" _ (by decide) _ q l la lo,
      callsTo_fanout_ne "mapbox" _ (by decide) _ q l la lo]
    simp [provider_fanout, callsTo]

/-! Concrete environments used by counterexamples and witnesses. -/

/-- Environment in which every provider failed to construct. -/
def env0 : Env := ⟨none, none, none, fun _ => .error "no storage"⟩

/-- Place resolved from the mapbox vendor in the C1 scenario. -/
def placeC1 : Place := ⟨"m1", "Cafe One", "1 Main St", none, none, "mapbox", []⟩

/-- Local-index provider whose save_place write always fails. -/
def whooshC1 : Provider :=
  ⟨fun _ _ _ _ => .ok [], fun _ => .error "nf", fun _ => .error "disk full"⟩

/-- Mapbox provider that resolves placeC1 for every id. -/
def mapboxC1 : Provider :=
  ⟨fun _ _ _ _ => .ok [], fun _ => .ok placeC1, fun _ => .ok ()⟩

/-- Environment with a failing local-index write and a healthy record store. -/
def envC1 : Env := ⟨some whooshC1, some mapboxC1, none, fun _ => .ok "fid-1"⟩

/-- Local-index provider whose text search finds nothing. -/
def whooshC5 : Provider :=
  ⟨fun _ _ _ _ => .ok [], fun _ => .error "nf", fun _ => .ok ()⟩

/-- Environment with only an empty local index. -/
def envC5 : Env := ⟨some whooshC5, none, none, fun _ => .error "no"⟩

/-- Place resolved from the google vendor in the C7 scenario. -/
def placeC7 : Place := ⟨"g7", "Museum", "9 Art Way", none, none, "google", []⟩

/-- Local-index provider whose save_place write fails read-only. -/
def whooshC7 : Provider :=
  ⟨fun _ _ _ _ => .ok [], fun _ => .error "nf", fun _ => .error "read-only index"⟩

/-- Mapbox provider resolving placeC1. -/
def mapboxC7 : Provider :=
  ⟨fun _ _ _ _ => .ok [], fun _ => .ok placeC1, fun _ => .ok ()⟩

/-- Google provider resolving placeC7. -/
def googleC7 : Provider :=
  ⟨fun _ _ _ _ => .ok [], fun _ => .ok placeC7, fun _ => .ok ()⟩

/-- Environment with all providers present, failing persistence. -/
def envC7 : Env := ⟨some whooshC7, some mapboxC7, some googleC7, fun _ => .error "quota"⟩

/-- Local-index record whose id differs from any requested id. -/
def placeC9 : Place := ⟨"other-id", "Other", "2 Side St", none, none, "local", []⟩

/-- Environment whose local index returns placeC9 for every text query. -/
def envC9 : Env :=
  ⟨some ⟨fun _ _ _ _ => .ok [placeC9], fun _ => .error "nf", fun _ => .ok ()⟩,
    none, none, fun _ => .error "no"⟩

/-! Claim theorems. -/

/-- C1: counterexample. In an environment whose local-index save_place
fails, a mapbox details request logs that failure but never attempts the
Firestore insert, while the response still succeeds — refuting the claim
that failure of one persistence write does not prevent attempting the
other. -/
theorem C1_counterexample :
    Effect.logErrorSave "disk full" ∈
      (get_place_details envC1 ⟨some "m1", some "mapbox"⟩).effects ∧
    attemptsWhooshSave (get_place_details envC1 ⟨some "m1", some "mapbox"⟩).effects = true ∧
    attemptsFirestoreSave (get_place_details envC1 ⟨some "m1", some "mapbox"⟩).effects = false ∧
    (get_place_details envC1 ⟨some "m1", some "mapbox"⟩).status = 200 := by
  decide

/-- C1 (amended): on a details request resolved from a non-local source the
two persistence writes run in sequence inside nested try blocks: save_place
is always attempted; a save_place failure is logged and swallowed but
prevents the durable-store insert from being attempted; when save_place
succeeds the durable-store insert is attempted and its failure is logged
and swallowed; in every case the details response still succeeds. -/
theorem C1_nested_persistence (env : Env) (w m : Provider) (pid : String)
    (p : Place) (hpid : pid ≠ "") (hw : env.whoosh_provider = some w)
    (hm : env.mapbox_provider = some m)
    (hres : m.get_place_details pid = .ok p) :
    (get_place_details env ⟨some pid, some "mapbox"⟩).status = 200 ∧
    attemptsWhooshSave (get_place_details env ⟨some pid, some "mapbox"⟩).effects = true ∧
    (∀ e, w.save_place p = .error e →
      Effect.logErrorSave e ∈ (get_place_details env ⟨some pid, some "mapbox"⟩).effects ∧
      attemptsFirestoreSave (get_place_details env ⟨some pid, some "mapbox"⟩).effects = false) ∧
    (∀ u, w.save_place p = .ok u →
      attemptsFirestoreSave (get_place_details env ⟨some pid, some "mapbox"⟩).effects = true ∧
      ∀ e, env.firestore_save p = .error e →
        Effect.logErrorFirestore e ∈ (get_place_details env ⟨some pid, some "mapbox"⟩).effects) := by
  rw [get_place_details_mapbox env m pid p hpid hm hres]
  refine ⟨rfl, ?_, ?_, ?_⟩
  · rcases hs : w.save_place p with e | u <;>
      simp [persistence_block, hw, hs, attemptsWhooshSave]
  · intro e hs
    constructor
    · simp [persistence_block, hw, hs]
    · simp [persistence_block, hw, hs, attemptsFirestoreSave]
  · intro u hs
    constructor
    · rcases hf : env.firestore_save p with e | fid <;>
        simp [persistence_block, hw, hs, hf, attemptsFirestoreSave]
    · intro e hf
      simp [persistence_block, hw, hs, hf]

/-- C1: witness for the amended theorem in the failing-save environment. -/
theorem C1_witness :
    (get_place_details envC1 ⟨some "m1", some "mapbox"⟩).status = 200 ∧
    Effect.logErrorSave "disk full" ∈
      (get_place_details envC1 ⟨some "m1", some "mapbox"⟩).effects ∧
    attemptsFirestoreSave (get_place_details envC1 ⟨some "m1", some "mapbox"⟩).effects = false := by
  have h := C1_nested_persistence envC1 whooshC1 mapboxC1 "m1" placeC1
    (by decide) rfl rfl rfl
  exact ⟨h.1, (h.2.2.1 "disk full" rfl).1, (h.2.2.1 "disk full" rfl).2⟩

/-- C2: counterexample. A suggestion request with an unparsable latitude is
answered with a 500 server error (from the generic exception handler), not
a client error, refuting the claim that malformed caller input is never
surfaced as a server error; no provider is invoked. -/
theorem C2_counterexample :
    (search_suggestions env0 ⟨some "pizza", none, some "local", some "abc", none⟩).status = 500 ∧
    providerCalls
      (search_suggestions env0 ⟨some "pizza", none, some "local", some "abc", none⟩).effects = [] := by
  decide

/-- C2 (amended): malformed caller input is rejected before any provider is
invoked, but the surfaced condition differs by kind: a missing or empty
query (with otherwise parsable numerics) yields a 400 client error, while
an unparsable latitude or longitude raises ValueError and is surfaced as a
500 server error by the generic exception handler. -/
theorem C2_validation_behavior (env : Env) (args : SuggestArgs) :
    (∀ L ra rb, falsyArg args.query = true →
      parseLimitArg args.limit = .ok L →
      parseCoordArg args.latitude = .ok ra →
      parseCoordArg args.longitude = .ok rb →
      search_suggestions env args =
        ⟨400, .error "Query parameter is required", []⟩) ∧
    (∀ s L, args.latitude = some s → pyFloat? s = none →
      parseLimitArg args.limit = .ok L →
      search_suggestions env args =
        ⟨500, .error ("could not convert string to float: " ++ s), []⟩) ∧
    (∀ s L ra, args.longitude = some s → pyFloat? s = none →
      parseLimitArg args.limit = .ok L →
      parseCoordArg args.latitude = .ok ra →
      search_suggestions env args =
        ⟨500, .error ("could not convert string to float: " ++ s), []⟩) := by
  refine ⟨?_, ?_, ?_⟩
  · intro L ra rb hfq hL hla hlo
    simp [search_suggestions, hL, hla, hlo, suggest_dispatch, hfq]
  · intro s L hlat hpf hL
    have hla : parseCoordArg args.latitude =
        .error ("could not convert string to float: " ++ s) := by
      simp [parseCoordArg, hlat, hpf]
    simp [search_suggestions, hL, hla]
  · intro s L ra hlng hpf hL hla
    have hlo : parseCoordArg args.longitude =
        .error ("could not convert string to float: " ++ s) := by
      simp [parseCoordArg, hlng, hpf]
    simp [search_suggestions, hL, hla, hlo]

/-- C2: witness for the amended theorem, one instance per error kind. -/
theorem C2_witness :
    search_suggestions env0 ⟨none, none, some "local", none, none⟩ =
      ⟨400, .error "Query parameter is required", []⟩ ∧
    search_suggestions env0 ⟨some "pizza", none, some "local", some "abc", none⟩ =
      ⟨500, .error ("could not convert string to float: " ++ "abc"), []⟩ := by
  exact ⟨(C2_validation_behavior env0 ⟨none, none, some "local", none, none⟩).1
      5 none none rfl rfl rfl rfl,
    (C2_validation_behavior env0
      ⟨some "pizza", none, some "local", some "abc", none⟩).2.1 "abc" 5 rfl rfl rfl⟩

/-- C3: for every environment (any subset of constructed providers), any
non-empty query with parsable location arguments and a limit argument
parsing to L with 0 ≤ L, a provider=all suggestion request returns a
suggestions list whose length is at most L and at most 5. -/
theorem C3_orchestrated_cap (env : Env) (args : SuggestArgs) (q : String)
    (L : Int) (la lo : Option Rat)
    (hq : args.query = some q) (hqne : q ≠ "")
    (hprov : args.provider = some "all")
    (hL : parseLimitArg args.limit = .ok L) (hL0 : 0 ≤ L)
    (hla : parseCoordArg args.latitude = .ok la)
    (hlo : parseCoordArg args.longitude = .ok lo) :
    ∃ xs, (search_suggestions env args).body = .suggestions xs ∧
      (xs.length : Int) ≤ L ∧ xs.length ≤ 5 := by
  have hp : pyLower "all" = "all" := rfl
  refine ⟨(orchestrator_search env q (min L 5) la lo).1.map toSuggestion, ?_, ?_, ?_⟩
  · simp only [search_suggestions, hL, hla, hlo, hq, hprov, Option.getD_some, hp,
      suggest_dispatch_all env q hqne]
  · have h1 := orchestrator_search_length_le env q (min L 5) la lo
    have h2 : (min L 5).toNat ≤ L.toNat := Int.toNat_le_toNat (min_le_left _ _)
    rw [List.length_map]
    omega
  · have h1 := orchestrator_search_length_le env q (min L 5) la lo
    have h2 : (min L 5).toNat ≤ (5 : Int).toNat := Int.toNat_le_toNat (min_le_right _ _)
    rw [List.length_map]
    omega

/-- C3: witness at a concrete request with limit=3. -/
theorem C3_witness :
    ∃ xs, (search_suggestions env0 ⟨some "x", some "3", some "all", none, none⟩).body =
        .suggestions xs ∧ (xs.length : Int) ≤ 3 ∧ xs.length ≤ 5 :=
  C3_orchestrated_cap env0 ⟨some "x", some "3", some "all", none, none⟩ "x" 3 none none
    rfl (by decide) rfl rfl (by decide) rfl rfl

/-- C4: a suggestion request with limit=100 behaves identically to one with
limit=5 — for every environment and any fixed query, provider and location
arguments the two requests produce the same response (status, body and
effect trace), because the handler caps the parsed limit at 5. -/
theorem C4_limit_capped_identical (env : Env) (q p la lo : Option String) :
    search_suggestions env ⟨q, some "100", p, la, lo⟩ =
    search_suggestions env ⟨q, some "5", p, la, lo⟩ := by
  have h1 : parseLimitArg (some "100") = .ok 100 := rfl
  have h2 : parseLimitArg (some "5") = .ok 5 := rfl
  have hmin : (min (100 : Int) 5) = min (5 : Int) 5 := by decide
  simp only [search_suggestions, h1, h2, hmin]

/-- C5: a place-details request with source=local runs the local provider
text search with the place_id as query and limit=1 (the invocation is in
the effect trace in every outcome), and when that search yields no results
the handler answers 404 Place not found rather than a server error. -/
theorem C5_local_details (env : Env) (w : Provider) (pid : String)
    (hw : env.whoosh_provider = some w) (hpid : pid ≠ "") :
    Effect.callSearch "whoosh" pid 1 none none ∈
      (get_place_details env ⟨some pid, some "local"⟩).effects ∧
    (w.search pid 1 none none = .ok [] →
      (get_place_details env ⟨some pid, some "local"⟩).status = 404 ∧
      (get_place_details env ⟨some pid, some "local"⟩).body = .error "Place not found") := by
  constructor
  · rcases hs : w.search pid 1 none none with pe | ls
    · simp [get_place_details, falsyArg, hpid, hw, hs]
    · rcases ls with _ | ⟨p, rest⟩ <;> simp [get_place_details, falsyArg, hpid, hw, hs]
  · intro hs
    simp [get_place_details, falsyArg, hpid, hw, hs]

/-- C5: witness in an environment whose local index finds nothing. -/
theorem C5_witness :
    Effect.callSearch "whoosh" "p1" 1 none none ∈
      (get_place_details envC5 ⟨some "p1", some "local"⟩).effects ∧
    (get_place_details envC5 ⟨some "p1", some "local"⟩).status = 404 := by
  have h := C5_local_details envC5 whooshC5 "p1" rfl (by decide)
  exact ⟨h.1, (h.2 rfl).1⟩

/-- C6: a direct single-provider request (suggestions or details) naming a
provider that was not constructed is answered 503 with an empty effect
trace — no provider invoked — while a provider=all request always answers
200 and its trace contains no invocation of any absent provider. -/
theorem C6_absent_providers (env : Env) (q pid : String) (lim la lo : Option String)
    (L : Int) (ra rb : Option Rat)
    (hq : q ≠ "") (hpid : pid ≠ "")
    (hL : parseLimitArg lim = .ok L)
    (hla : parseCoordArg la = .ok ra) (hlo : parseCoordArg lo = .ok rb) :
    (env.whoosh_provider = none →
      search_suggestions env ⟨some q, lim, some "local", la, lo⟩ =
        ⟨503, .error "Local search provider is not available", []⟩) ∧
    (env.mapbox_provider = none →
      search_suggestions env ⟨some q, lim, some "mapbox", la, lo⟩ =
        ⟨503, .error "Mapbox search provider is not available", []⟩) ∧
    (env.google_places_provider = none →
      search_suggestions env ⟨some q, lim, some "google", la, lo⟩ =
        ⟨503, .error "Google Places search provider is not available", []⟩) ∧
    (env.whoosh_provider = none →
      get_place_details env ⟨some pid, some "local"⟩ =
        ⟨503, .error "Local search provider is not available", []⟩) ∧
    (env.mapbox_provider = none →
      get_place_details env ⟨some pid, some "mapbox"⟩ =
        ⟨503, .error "Mapbox search provider is not available", []⟩) ∧
    (env.google_places_provider = none →
      get_place_details env ⟨some pid, some "google"⟩ =
        ⟨503, .error "Google Places search provider is not available", []⟩) ∧
    (search_suggestions env ⟨some q, lim, some "all", la, lo⟩).status = 200 ∧
    (env.whoosh_provider = none →
      callsTo "whoosh" (search_suggestions env ⟨some q, lim, some "all", la, lo⟩).effects = false) ∧
    (env.mapbox_provider = none →
      callsTo "mapbox" (search_suggestions env ⟨some q, lim, some "all", la, lo⟩).effects = false) ∧
    (env.google_places_provider = none →
      callsTo "google" (search_suggestions env ⟨some q, lim, some "all", la, lo⟩).effects = false) := by
  have hlocal : pyLower "local" = "local" := rfl
  have hmapbox : pyLower "mapbox" = "mapbox" := rfl
  have hgoogle : pyLower "google" = "google" := rfl
  have hall : pyLower "all" = "all" := rfl
  have hsd := suggest_dispatch_all env q hq (min L 5) ra rb
  refine ⟨?_, ?_, ?_, ?_, ?_, ?_, ?_, ?_, ?_, ?_⟩
  · intro h
    simp [search_suggestions, hL, hla, hlo, hlocal, suggest_dispatch, falsyArg, hq, h]
  · intro h
    simp [search_suggestions, hL, hla, hlo, hmapbox, suggest_dispatch, falsyArg, hq, h]
  · intro h
    simp [search_suggestions, hL, hla, hlo, hgoogle, suggest_dispatch, falsyArg, hq, h]
  · intro h
    simp [get_place_details, falsyArg, hpid, h]
  · intro h
    simp [get_place_details, falsyArg, hpid, h]
  · intro h
    simp [get_place_details, falsyArg, hpid, h]
  · simp only [search_suggestions, hL, hla, hlo, Option.getD_some, hall, hsd]
  · intro h
    simp only [search_suggestions, hL, hla, hlo, Option.getD_some, hall, hsd]
    exact (orchestrator_skips_absent env q (min L 5) ra rb).1 h
  · intro h
    simp only [search_suggestions, hL, hla, hlo, Option.getD_some, hall, hsd]
    exact (orchestrator_skips_absent env q (min L 5) ra rb).2.1 h
  · intro h
    simp only [search_suggestions, hL, hla, hlo, Option.getD_some, hall, hsd]
    exact (orchestrator_skips_absent env q (min L 5) ra rb).2.2 h

/-- C6: witness in the environment where every provider is absent. -/
theorem C6_witness :
    search_suggestions env0 ⟨some "tea", none, some "local", none, none⟩ =
      ⟨503, .error "Local search provider is not available", []⟩ ∧
    get_place_details env0 ⟨some "p9", some "google"⟩ =
      ⟨503, .error "Google Places search provider is not available", []⟩ ∧
    (search_suggestions env0 ⟨some "tea", none, some "all", none, none⟩).status = 200 := by
  have h := C6_absent_providers env0 "tea" "p9" none none none 5 none none
    (by decide) (by decide) rfl rfl rfl
  exact ⟨h.1 rfl, h.2.2.2.2.2.1 rfl, h.2.2.2.2.2.2.1⟩

/-- C7: whenever provider resolution of a details request succeeds (mapbox
or google source), the response is 200 with the resolved place regardless
of the persistence outcomes, and each persistence failure that occurs is
logged: a save_place failure leaves a logErrorSave record, a Firestore
failure after a successful save_place leaves a logErrorFirestore record. -/
theorem C7_persistence_never_surfaced (env : Env) (pid : String) (hpid : pid ≠ "") :
    (∀ m p, env.mapbox_provider = some m → m.get_place_details pid = .ok p →
      (get_place_details env ⟨some pid, some "mapbox"⟩).status = 200 ∧
      (get_place_details env ⟨some pid, some "mapbox"⟩).body = .place (toPlaceOut p)) ∧
    (∀ g p, env.google_places_provider = some g → g.get_place_details pid = .ok p →
      (get_place_details env ⟨some pid, some "google"⟩).status = 200 ∧
      (get_place_details env ⟨some pid, some "google"⟩).body = .place (toPlaceOut p)) ∧
    (∀ m p w e, env.mapbox_provider = some m → m.get_place_details pid = .ok p →
      env.whoosh_provider = some w → w.save_place p = .error e →
      Effect.logErrorSave e ∈ (get_place_details env ⟨some pid, some "mapbox"⟩).effects) ∧
    (∀ m p w u e, env.mapbox_provider = some m → m.get_place_details pid = .ok p →
      env.whoosh_provider = some w → w.save_place p = .ok u →
      env.firestore_save p = .error e →
      Effect.logErrorFirestore e ∈ (get_place_details env ⟨some pid, some "mapbox"⟩).effects) := by
  refine ⟨?_, ?_, ?_, ?_⟩
  · intro m p hm hres
    rw [get_place_details_mapbox env m pid p hpid hm hres]
    exact ⟨rfl, rfl⟩
  · intro g p hg hres
    rw [get_place_details_google env g pid p hpid hg hres]
    exact ⟨rfl, rfl⟩
  · intro m p w e hm hres hw hs
    rw [get_place_details_mapbox env m pid p hpid hm hres]
    simp [persistence_block, hw, hs]
  · intro m p w u e hm hres hw hs hf
    rw [get_place_details_mapbox env m pid p hpid hm hres]
    simp [persistence_block, hw, hs, hf]

/-- C7: witness in an environment where both persistence writes fail. -/
theorem C7_witness :
    (get_place_details envC7 ⟨some "m1", some "mapbox"⟩).status = 200 ∧
    (get_place_details envC7 ⟨some "g7", some "google"⟩).status = 200 ∧
    Effect.logErrorSave "read-only index" ∈
      (get_place_details envC7 ⟨some "m1", some "mapbox"⟩).effects := by
  have h1 := C7_persistence_never_surfaced envC7 "m1" (by decide)
  have h2 := C7_persistence_never_surfaced envC7 "g7" (by decide)
  exact ⟨(h1.1 mapboxC7 placeC1 rfl rfl).1, (h2.2.1 googleC7 placeC7 rfl rfl).1,
    h1.2.2.1 mapboxC7 placeC1 whooshC7 "read-only index" rfl rfl rfl rfl⟩

/-- C8: the persistence writes preserve provenance — when a mapbox details
resolution returns a place whose source is the vendor tag, every place
written to the local index or the durable store is that resolved place
unchanged, its source still the vendor and never relabeled local; the
local-index write actually occurs when the local provider exists. -/
theorem C8_provenance_preserved (env : Env) (w m : Provider) (pid : String) (p : Place)
    (hpid : pid ≠ "") (hw : env.whoosh_provider = some w)
    (hm : env.mapbox_provider = some m)
    (hres : m.get_place_details pid = .ok p) (hsrc : p.source = "mapbox") :
    Effect.callWhooshSave p ∈ (get_place_details env ⟨some pid, some "mapbox"⟩).effects ∧
    (∀ q, Effect.callWhooshSave q ∈ (get_place_details env ⟨some pid, some "mapbox"⟩).effects →
      q = p ∧ q.source = "mapbox" ∧ q.source ≠ "local") ∧
    (∀ q, Effect.callFirestoreSave q ∈ (get_place_details env ⟨some pid, some "mapbox"⟩).effects →
      q = p ∧ q.source = "mapbox" ∧ q.source ≠ "local") := by
  rw [get_place_details_mapbox env m pid p hpid hm hres]
  refine ⟨?_, ?_, ?_⟩
  · rcases hs : w.save_place p with e | u <;> simp [persistence_block, hw, hs]
  · intro q hq
    rcases hs : w.save_place p with e | u
    · simp [persistence_block, hw, hs] at hq
      subst hq
      exact ⟨rfl, hsrc, by simp [hsrc]⟩
    · rcases hf : env.firestore_save p with e | fid <;>
        simp [persistence_block, hw, hs, hf] at hq <;>
        · subst hq
          exact ⟨rfl, hsrc, by simp [hsrc]⟩
  · intro q hq
    rcases hs : w.save_place p with e | u
    · simp [persistence_block, hw, hs] at hq
    · rcases hf : env.firestore_save p with e | fid <;>
        simp [persistence_block, hw, hs, hf] at hq <;>
        · subst hq
          exact ⟨rfl, hsrc, by simp [hsrc]⟩

/-- C8: witness in the C1 environment. -/
theorem C8_witness :
    Effect.callWhooshSave placeC1 ∈
      (get_place_details envC1 ⟨some "m1", some "mapbox"⟩).effects ∧
    placeC1.source = "mapbox" := by
  have h := C8_provenance_preserved envC1 whooshC1 mapboxC1 "m1" placeC1
    (by decide) rfl rfl rfl rfl
  exact ⟨h.1, rfl⟩

/-- C9: a local-source details request returns the first text-search hit
without verifying its id — in an environment whose index search returns a
place with a different place_id, the handler answers 200 with that other
place. -/
theorem C9_no_id_check :
    (get_place_details envC9 ⟨some "wanted-id", some "local"⟩).status = 200 ∧
    (get_place_details envC9 ⟨some "wanted-id", some "local"⟩).body =
      .place (toPlaceOut placeC9) ∧
    placeC9.place_id ≠ "wanted-id" := by
  decide

/-- C10: for provider=local suggestion requests the latitude and longitude
arguments are parsed but never passed to the local provider — any two such
requests that differ only in parseable latitude/longitude strings produce
the same response and the same effect trace (identical provider
invocation). -/
theorem C10_location_ignored (env : Env) (q lim la1 lo1 la2 lo2 : Option String)
    (r1 s1 r2 s2 : Option Rat)
    (h1 : parseCoordArg la1 = .ok r1) (h2 : parseCoordArg lo1 = .ok s1)
    (h3 : parseCoordArg la2 = .ok r2) (h4 : parseCoordArg lo2 = .ok s2) :
    search_suggestions env ⟨q, lim, some "local", la1, lo1⟩ =
    search_suggestions env ⟨q, lim, some "local", la2, lo2⟩ := by
  simp only [search_suggestions, h1, h2, h3, h4]
  rcases parseLimitArg lim with e | n
  · rfl
  · rfl

/-- C10: witness — two local requests with different parseable coordinate
strings give the same response. -/
theorem C10_witness :
    search_suggestions envC5 ⟨some "cafe", none, some "local", some "7", none⟩ =
    search_suggestions envC5 ⟨some "cafe", none, some "local", none, some "3.5"⟩ :=
  C10_location_ignored envC5 (some "cafe") none (some "7") none none (some "3.5")
    _ _ _ _ rfl rfl rfl rfl

end Mesa
